import Mathlib

/-!
Verification of the `Workspace` orchestrator of `src/sources_non_forked/coc/src/workspace.ts`
(coc.nvim). The definitions below are a shallow embedding of that file:
pure getters become Lean functions, the `init`/`dispose` lifecycle bodies
become effect traces, the deprecation shim becomes an explicit
logging-state-passing function, and the Node `path`/`os` primitives the
constructor and `createDatabase` call are modelled after Node's documented
posix behaviour.
-/

namespace Coc

/-- Compiled-in expected API version: `const APIVERSION = 17` (workspace.ts line 35). -/
def APIVERSION : Nat := 17

/-- The fixed list of deprecated method names shimmed by `init`
(`const methods = [...]`, workspace.ts lines 37-42). -/
def methods : List String :=
  ["showMessage", "runTerminalCommand", "openTerminal", "showQuickpick",
   "menuPick", "openLocalConfig", "showPrompt", "createStatusBarItem", "createOutputChannel",
   "showOutputChannel", "requestInput", "echoLines", "getCursorPosition", "moveTo",
   "getOffset", "getSelectedRange", "selectRange"]

/-- Identity of one event-emitter stream. The TypeScript facade re-exports a
subcomponent's `Event` object by plain field assignment; object identity is
modelled as equality of stream identifiers. -/
structure EventStream where
  id : Nat
deriving DecidableEq, Repr

/-- The `Configurations` collaborator surface consumed by the constructor
(only its event stream matters to the wiring). -/
structure Configurations where
  onDidChange : EventStream
deriving DecidableEq, Repr

/-- The `WorkspaceFolderController` collaborator surface consumed by the constructor. -/
structure WorkspaceFolderController where
  onDidChangeWorkspaceFolders : EventStream
deriving DecidableEq, Repr

/-- The `Documents` collaborator surface consumed by the constructor and the
`root`/`cwd`/`rootPath` getters: its event streams plus the `root` and `cwd`
string state. -/
structure Documents where
  onDidOpenTextDocument : EventStream
  onDidChangeDocument : EventStream
  onDidCloseDocument : EventStream
  onDidSaveTextDocument : EventStream
  onWillSaveTextDocument : EventStream
  onDidOpenTerminal : EventStream
  onDidCloseTerminal : EventStream
  root : String
  cwd : String
deriving DecidableEq, Repr

/-- The `Watchers` collaborator surface consumed by the constructor. -/
structure Watchers where
  onDidRuntimePathChange : EventStream
deriving DecidableEq, Repr

/-- The `Files` collaborator surface consumed by the constructor. -/
structure Files where
  onDidCreateFiles : EventStream
  onDidRenameFiles : EventStream
  onDidDeleteFiles : EventStream
  onWillCreateFiles : EventStream
  onWillRenameFiles : EventStream
  onWillDeleteFiles : EventStream
deriving DecidableEq, Repr

/-- The `Workspace` facade state built by the constructor: the re-exported
event fields (workspace.ts lines 45-60 and 88-103) and the collaborators. -/
structure Workspace where
  onDidChangeConfiguration : EventStream
  onDidOpenTextDocument : EventStream
  onDidCloseTextDocument : EventStream
  onDidChangeTextDocument : EventStream
  onDidSaveTextDocument : EventStream
  onWillSaveTextDocument : EventStream
  onDidChangeWorkspaceFolders : EventStream
  onDidCloseTerminal : EventStream
  onDidOpenTerminal : EventStream
  onDidRuntimePathChange : EventStream
  onDidCreateFiles : EventStream
  onDidRenameFiles : EventStream
  onDidDeleteFiles : EventStream
  onWillCreateFiles : EventStream
  onWillRenameFiles : EventStream
  onWillDeleteFiles : EventStream
  configurations : Configurations
  workspaceFolderControl : WorkspaceFolderController
  documentsManager : Documents
  watchers : Watchers
  files : Files
deriving DecidableEq, Repr

/-- The constructor wiring of workspace.ts lines 88-103: every facade event
field is assigned the corresponding subcomponent's event object directly. The
collaborators themselves are constructed by external modules and arrive here
as parameters. -/
def Workspace.construct (configurations : Configurations)
    (workspaceFolderControl : WorkspaceFolderController) (documents : Documents)
    (watchers : Watchers) (files : Files) : Workspace :=
  { onDidRuntimePathChange := watchers.onDidRuntimePathChange
    onDidChangeWorkspaceFolders := workspaceFolderControl.onDidChangeWorkspaceFolders
    onDidChangeConfiguration := configurations.onDidChange
    onDidOpenTextDocument := documents.onDidOpenTextDocument
    onDidChangeTextDocument := documents.onDidChangeDocument
    onDidCloseTextDocument := documents.onDidCloseDocument
    onDidSaveTextDocument := documents.onDidSaveTextDocument
    onWillSaveTextDocument := documents.onWillSaveTextDocument
    onDidOpenTerminal := documents.onDidOpenTerminal
    onDidCloseTerminal := documents.onDidCloseTerminal
    onDidCreateFiles := files.onDidCreateFiles
    onDidRenameFiles := files.onDidRenameFiles
    onDidDeleteFiles := files.onDidDeleteFiles
    onWillCreateFiles := files.onWillCreateFiles
    onWillRenameFiles := files.onWillRenameFiles
    onWillDeleteFiles := files.onWillDeleteFiles
    configurations := configurations
    workspaceFolderControl := workspaceFolderControl
    documentsManager := documents
    watchers := watchers
    files := files }

/-- What a subscriber to stream `s` observes in world `w`: the world assigns
each stream identity its emission history (payloads in emission order).
Subscribing to the same stream observes the same history. -/
def observe (w : EventStream → List String) (s : EventStream) : List String := w s

/-- The `cwd` getter (workspace.ts lines 134-136): delegates to `documentsManager.cwd`. -/
def Workspace.cwd (ws : Workspace) : String := ws.documentsManager.cwd

/-- The `root` getter (workspace.ts lines 142-144):
`this.documentsManager.root || this.cwd`. The only falsy JS string is the
empty string, so the getter yields `documentsManager.root` when that is
non-empty and `cwd` otherwise. -/
def Workspace.root (ws : Workspace) : String :=
  if ws.documentsManager.root ≠ "" then ws.documentsManager.root else ws.cwd

/-- The `rootPath` getter (workspace.ts lines 146-148): returns `this.root`. -/
def Workspace.rootPath (ws : Workspace) : String := ws.root

/-- The environment snapshot (`Env`) as `init` consumes it: the fields read by
workspace.ts (`apiversion`, `isVim`, `floating`, `textprop`, `completeOpt`,
`workspaceFolders`, `config`, `extensionRoot`). Folder and config payloads are
kept abstract as strings. -/
structure Env where
  apiversion : Nat
  isVim : Bool
  floating : Bool
  textprop : Bool
  completeOpt : String
  workspaceFolders : List String
  config : String
  extensionRoot : String
deriving DecidableEq, Repr

/-- The services `init` attaches (workspace.ts lines 125-131), plus the
document model attached through `this.attach()` (line 131, body at line 438). -/
inductive Service where
  | files
  | contentProvider
  | keymaps
  | autocmds
  | locations
  | watchers
  | documents
deriving DecidableEq, Repr

/-- One observable step of `init` after the snapshot fetch: the `echoError`
notification, the two seeding calls, and the attach calls. -/
inductive Effect where
  | echoError (msg : String)
  | setWorkspaceFolders (folders : List String)
  | updateUserConfig (config : String)
  | attach (s : Service)
deriving DecidableEq, Repr

/-- The remediation-hint tail of the mismatch message. -/
def versionMismatchHint : String :=
  ", please build coc.nvim by \x27yarn install\x27 after pull source code."

/-- The message passed to `nvim.echoError` on an API version mismatch
(workspace.ts line 121). -/
def vimInfoMismatchMsg (reported : Nat) : String :=
  "API version " ++ toString reported ++ " is not " ++ toString APIVERSION
    ++ versionMismatchHint

/-- The effect trace of `init` after the `coc#util#vim_info` fetch returned
`env` (workspace.ts lines 120-131): the conditional `echoError`, then seeding
`workspaceFolderControl` and `configurations` from the snapshot, then the six
mid-level attach calls, then `this.attach()` which attaches
`documentsManager`. -/
def init (env : Env) : List Effect :=
  (if env.apiversion ≠ APIVERSION
    then [Effect.echoError (vimInfoMismatchMsg env.apiversion)] else [])
  ++ [Effect.setWorkspaceFolders env.workspaceFolders,
      Effect.updateUserConfig env.config,
      Effect.attach Service.files,
      Effect.attach Service.contentProvider,
      Effect.attach Service.keymaps,
      Effect.attach Service.autocmds,
      Effect.attach Service.locations,
      Effect.attach Service.watchers,
      Effect.attach Service.documents]

/-- The registries seeded during `init`: the workspace-folder registry and the
configuration store. -/
structure SeededState where
  workspaceFolders : List String
  configStore : String
deriving DecidableEq, Repr

/-- How one `init` effect acts on the seeded registries:
`setWorkspaceFolders` replaces the folder registry, `updateUserConfig`
replaces the user configuration; the other effects do not touch them. -/
def applyEffect (st : SeededState) : Effect → SeededState
  | Effect.setWorkspaceFolders fs => { st with workspaceFolders := fs }
  | Effect.updateUserConfig c => { st with configStore := c }
  | _ => st

/-- The seeded registries after running the whole `init` trace from `st`. -/
def runInit (env : Env) (st : SeededState) : SeededState :=
  (init env).foldl applyEffect st

/-- Whether an `init` effect is a service attach step. -/
def Effect.isAttach : Effect → Bool
  | Effect.attach _ => true
  | _ => false

/-- The collaborators `dispose` tears down (workspace.ts lines 514-520). -/
inductive Collab where
  | watchers
  | autocmds
  | contentProvider
  | documentsManager
  | configurations
deriving DecidableEq, Repr, Fintype

/-- The textual order of the five `dispose` calls in `Workspace.dispose`. -/
def disposeOrder : List Collab :=
  [Collab.watchers, Collab.autocmds, Collab.contentProvider,
   Collab.documentsManager, Collab.configurations]

/-- JavaScript semantics of a plain statement sequence of calls, as in the
body of `Workspace.dispose`: each collaborator's `dispose()` is called in
turn; an exception thrown by one call propagates out of the method at once,
so the calls after it never run. `throws c` says whether collaborator `c`'s
`dispose()` throws. Returns the collaborators whose `dispose()` was invoked,
and whether the method completed normally. -/
def disposeSeq (throws : Collab → Bool) : List Collab → List Collab × Bool
  | [] => ([], true)
  | c :: rest =>
    if throws c then ([c], false)
    else
      let r := disposeSeq throws rest
      (c :: r.1, r.2)

/-- The `Workspace.dispose` body (workspace.ts lines 514-520): the call
sequence over `disposeOrder`, with no try/catch around any step. -/
def runDispose (throws : Collab → Bool) : List Collab × Bool :=
  disposeSeq throws disposeOrder

/-- Description of which dispose steps run, in the spec's terms: all of them
when no step throws, otherwise the prefix of the fixed order up to and
including the first throwing step. -/
def disposeExecutedSpec (throws : Collab → Bool) : List Collab :=
  match disposeOrder.findIdx? throws with
  | none => disposeOrder
  | some i => disposeOrder.take (i + 1)

/-- The replacement surface the shim forwards to: the `window` object, a
method-name-indexed family of functions. Arguments and results are kept
abstract as naturals. -/
def Window : Type := String → List Nat → Nat

/-- The deprecation warning text passed to `logger.warn` by the forwarding
function (workspace.ts line 113). -/
def deprecationMsg (method : String) : String :=
  "workspace." ++ method ++ " is deprecated, please use window." ++ method
    ++ " instead."

/-- The stack lines the forwarding function keeps from the caller stack:
`Error().stack.split` on newline followed by `.slice(2, 4)` (workspace.ts
line 112), i.e. the elements at indices 2 and 3 of the split. -/
def sliceStack (stackLines : List String) : List String :=
  (stackLines.drop 2).take 2

/-- The stack excerpt string appended to the warning (workspace.ts line 112):
a newline followed by the kept lines joined with newlines. -/
def stackExcerpt (stackLines : List String) : String :=
  "\n" ++ String.intercalate "\n" (sliceStack stackLines)

/-- One logged warning: the message and the stack-excerpt argument of
`logger.warn`. -/
abbrev WarnLog := List (String × String)

/-- The forwarding function the shim getter builds (workspace.ts lines
111-115): invoked with the call arguments, the caller's stack lines and the
current log, it appends exactly one warning and delegates to the same-named
method of `window` with the same arguments, returning that result unchanged. -/
def forwardingFn (window : Window) (method : String)
    (args : List Nat) (stackLines : List String) (log : WarnLog) : Nat × WarnLog :=
  (window method args, log ++ [(deprecationMsg method, stackExcerpt stackLines)])

/-- Reading the shim accessor (the getter of `Object.defineProperty`,
workspace.ts lines 109-117): it only builds and returns the forwarding
closure; the log is untouched by the read. -/
def accessorRead (window : Window) (method : String) (log : WarnLog) :
    (List Nat → List String → WarnLog → Nat × WarnLog) × WarnLog :=
  (forwardingFn window method, log)

/-- Invoking one forwarding function for each call of `calls` (argument list
and caller stack per call), threading the log. -/
def invokeAll (window : Window) (method : String)
    (calls : List (List Nat × List String)) (log : WarnLog) : WarnLog :=
  calls.foldl (fun l c => (forwardingFn window method c.1 c.2 l).2) log

/-- Splitting a character sequence on the separator, as JS
`path.split("/")`: adjacent separators and separators at either end yield
empty segments. -/
def splitOnSlash : List Char → List (List Char)
  | [] => [[]]
  | c :: rest =>
    match splitOnSlash rest with
    | [] => [[]]
    | s :: ss => if c = '/' then [] :: s :: ss else (c :: s) :: ss

/-- Joining segments with the separator, as JS `segments.join("/")`. -/
def joinSlash : List (List Char) → List Char
  | [] => []
  | [s] => s
  | s :: ss => s ++ '/' :: joinSlash ss

/-- Node's posix path-segment resolution (the `normalizeString` helper):
drops empty and "." segments, resolves ".." against the accumulated prefix
`acc` (held reversed), and keeps leading ".." segments only for relative
paths (`allowAboveRoot`). -/
def normSegs (allowAboveRoot : Bool) :
    List (List Char) → List (List Char) → List (List Char)
  | acc, [] => acc.reverse
  | acc, seg :: rest =>
    if seg = [] ∨ seg = ['.'] then normSegs allowAboveRoot acc rest
    else if seg = ['.', '.'] then
      match acc with
      | [] =>
        if allowAboveRoot then normSegs allowAboveRoot [['.', '.']] rest
        else normSegs allowAboveRoot [] rest
      | top :: tl =>
        if top = ['.', '.'] then normSegs allowAboveRoot (['.', '.'] :: acc) rest
        else normSegs allowAboveRoot tl rest
    else normSegs allowAboveRoot (seg :: acc) rest

/-- Node's posix `path.normalize` on the character sequence of its argument:
empty input yields ".", otherwise the segments are resolved, an empty
relative result becomes ".", a trailing separator is preserved on a non-empty
body, and an absolute path gets its leading slash back. -/
def pathNormalizeCore (cs : List Char) : List Char :=
  if cs = [] then ['.']
  else
    let isAbs := cs.head? == some '/'
    let trailing := cs.getLast? == some '/'
    let body := joinSlash (normSegs (!isAbs) [] (splitOnSlash cs))
    let body1 := if body = [] ∧ isAbs = false then ['.'] else body
    let body2 := if body1 ≠ [] ∧ trailing = true then body1 ++ ['/'] else body1
    if isAbs then '/' :: body2 else body2

/-- Node's posix `path.normalize` on a string argument. -/
def pathNormalize (p : String) : String := String.mk (pathNormalizeCore p.data)

/-- Node's posix `path.join`: the non-empty parts joined with "/" and
normalized; joining nothing yields ".". -/
def pathJoin (parts : List String) : String :=
  let joined := joinSlash ((parts.filter (fun s => s ≠ "")).map String.data)
  if joined = [] then "." else pathNormalize (String.mk joined)

/-- Node's posix `path.dirname` backward scan: examining index `i` (the
constructor argument is `i + 1`) down to index 1, skipping the run of
trailing separators (`matched`), the scan yields the index of the separator
just before the last path component, when there is one. -/
def dirEndAux (cs : List Char) : Nat → Bool → Option Nat
  | 0, _ => none
  | i + 1, matched =>
    if cs.getD (i + 1) ' ' = '/' then
      if matched then dirEndAux cs i true else some (i + 1)
    else dirEndAux cs i false

/-- Node's posix `path.dirname`: empty input yields "."; otherwise the string
up to the separator before the last component, "/" for root-only absolute
paths, "." when a relative path has no separator, and "//" for the double
root. -/
def pathDirname (p : String) : String :=
  if p = "" then "."
  else
    let cs := p.data
    let hasRoot := cs.getD 0 ' ' = '/'
    match dirEndAux cs (cs.length - 1) true with
    | none => if hasRoot then "/" else "."
    | some e => if hasRoot ∧ e = 1 then "//" else String.mk (cs.take e)

/-- Modelled from the spec: `CONFIG_FILE_NAME`, imported by workspace.ts from
`./util/index` which is not under src/; the spec calls it a fixed relative
filename, the user configuration file of coc.nvim. -/
def CONFIG_FILE_NAME : String := "coc-settings.json"

/-- Node `path.normalize` applied to the raw environment-variable read
`process.env.COC_VIMCONFIG` (workspace.ts line 77): the read yields a string
when the variable is set and `undefined` when it is not, and `path.normalize`
throws a TypeError on any non-string argument. -/
def pathNormalizeEnv : Option String → Except String String
  | none =>
    Except.error "TypeError: The \x22path\x22 argument must be of type string"
  | some s => Except.ok (pathNormalize s)

/-- The user-configuration-file computation of the constructor (workspace.ts
lines 77-78): `path.normalize(process.env.COC_VIMCONFIG) ||
path.join(os.homedir(), \x27.vim\x27)` followed by `path.join(home,
CONFIG_FILE_NAME)`. A JS `||` takes its right operand exactly when the left
one is falsy, which for strings means empty. -/
def userConfigFile (cocVimconfig : Option String) (homedir : String) :
    Except String String :=
  match pathNormalizeEnv cocVimconfig with
  | Except.error e => Except.error e
  | Except.ok n =>
    let home := if n ≠ "" then n else pathJoin [homedir, ".vim"]
    Except.ok (pathJoin [home, CONFIG_FILE_NAME])

/-- The `createDatabase` body (workspace.ts lines 421-431): under test the
root is `os.tmpdir()/coc-<pid>`, otherwise `path.dirname(this.env.extensionRoot)`;
the backing file is `path.join(root, name + ".json")`. -/
def createDatabase (isTest : Bool) (tmpdir : String) (pid : Nat)
    (extensionRoot : String) (name : String) : String :=
  let root :=
    if isTest then pathJoin [tmpdir, "coc-" ++ toString pid]
    else pathDirname extensionRoot
  pathJoin [root, name ++ ".json"]

/-- Description of the amended claim about `createDatabase` in the spec's
terms: the backing file is the file named `name ++ ".json"` under the parent
directory of the snapshot's `extensionRoot`. -/
def databasePathSpec (extensionRoot : String) (name : String) : String :=
  pathJoin [pathDirname extensionRoot, name ++ ".json"]

/-- A document as the sync-registry factory sees it: a stable identity (the
buffer number) and a language identifier. -/
structure Doc where
  bufnr : Nat
  languageId : String
deriving DecidableEq, Repr

/-- Modelled from the spec: a SyncItem stored by a BufferSync registry
(`src/model/bufferSync.ts` is not under src/; workspace.ts line 434 only
constructs `new BufferSync(create, this)`). The spec gives a stored state
object an optional teardown capability, modelled by the flag `hasDispose`. -/
structure Item where
  hasDispose : Bool
deriving DecidableEq, Repr

/-- Modelled from the spec: the mapping owned by one BufferSync registry from
document identity to its stored SyncItem. -/
abbrev SyncMap := List (Nat × Item)

/-- Modelled from the spec: `registerBufferSync(create)` creates a registry
whose factory is invoked immediately for every currently open document;
accepted results are stored keyed by document identity, declined documents
get no entry. -/
def registerBufferSync (create : Doc → Option Item) (openDocs : List Doc) : SyncMap :=
  openDocs.filterMap (fun d => (create d).map (fun it => (d.bufnr, it)))

/-- Modelled from the spec: the factory is invoked exactly once per newly
opened document; an accepted result is stored, a declined one leaves the
registry unchanged. -/
def onBufCreate (create : Doc → Option Item) (m : SyncMap) (d : Doc) : SyncMap :=
  match create d with
  | some it => m ++ [(d.bufnr, it)]
  | none => m

/-- Modelled from the spec: on document close, if a stored entry exists for
that identity its optional teardown capability is invoked and then the entry
is removed; if no entry exists, nothing happens. Returns the new mapping and
the identities whose teardown fired during this close. -/
def onBufUnload (m : SyncMap) (bufnr : Nat) : SyncMap × List Nat :=
  match m.find? (fun e => e.1 == bufnr) with
  | none => (m, [])
  | some e =>
    (m.filter (fun e2 => e2.1 != bufnr),
     if e.2.hasDispose then [bufnr] else [])

/-- C10: for every workspace state, the `rootPath` getter returns exactly the
same value as the `root` getter; `cwd` delegates to `documentsManager.cwd`;
and `root` equals `documentsManager.root` when that is non-empty and falls
back to the current working directory otherwise. -/
theorem rootPath_eq_root (ws : Workspace) :
    ws.rootPath = ws.root ∧
    ws.cwd = ws.documentsManager.cwd ∧
    ws.root = (if ws.documentsManager.root = "" then ws.documentsManager.cwd
               else ws.documentsManager.root) := by
  refine ⟨rfl, rfl, ?_⟩
  by_cases h : ws.documentsManager.root = "" <;>
    simp [Workspace.root, Workspace.cwd, h]

/-- C6: every event exposed on the orchestrator facade is the very same event
stream as the one owned by the corresponding subcomponent — the constructor
assigns the subcomponent's stream directly — so subscribing through the
facade and subscribing on the subcomponent observe identical payload
sequences in identical order, with no buffering, coalescing, deduplication or
reordering. -/
theorem facade_events_alias (configurations : Configurations)
    (workspaceFolderControl : WorkspaceFolderController) (documents : Documents)
    (watchers : Watchers) (files : Files) (w : EventStream → List String) :
    let ws := Workspace.construct configurations workspaceFolderControl
      documents watchers files
    (ws.onDidChangeConfiguration = configurations.onDidChange ∧
     ws.onDidOpenTextDocument = documents.onDidOpenTextDocument ∧
     ws.onDidChangeTextDocument = documents.onDidChangeDocument ∧
     ws.onDidCloseTextDocument = documents.onDidCloseDocument ∧
     ws.onDidSaveTextDocument = documents.onDidSaveTextDocument ∧
     ws.onWillSaveTextDocument = documents.onWillSaveTextDocument ∧
     ws.onDidOpenTerminal = documents.onDidOpenTerminal ∧
     ws.onDidCloseTerminal = documents.onDidCloseTerminal ∧
     ws.onDidChangeWorkspaceFolders
       = workspaceFolderControl.onDidChangeWorkspaceFolders ∧
     ws.onDidRuntimePathChange = watchers.onDidRuntimePathChange ∧
     ws.onDidCreateFiles = files.onDidCreateFiles ∧
     ws.onDidRenameFiles = files.onDidRenameFiles ∧
     ws.onDidDeleteFiles = files.onDidDeleteFiles ∧
     ws.onWillCreateFiles = files.onWillCreateFiles ∧
     ws.onWillRenameFiles = files.onWillRenameFiles ∧
     ws.onWillDeleteFiles = files.onWillDeleteFiles) ∧
    (observe w ws.onDidOpenTextDocument
       = observe w documents.onDidOpenTextDocument ∧
     observe w ws.onDidChangeConfiguration
       = observe w configurations.onDidChange ∧
     observe w ws.onDidChangeWorkspaceFolders
       = observe w workspaceFolderControl.onDidChangeWorkspaceFolders ∧
     observe w ws.onDidCreateFiles = observe w files.onDidCreateFiles) := by
  intro ws
  exact ⟨⟨rfl, rfl, rfl, rfl, rfl, rfl, rfl, rfl, rfl, rfl, rfl, rfl, rfl,
    rfl, rfl, rfl⟩, rfl, rfl, rfl, rfl⟩

/-- C2: for every run of `init`, the mid-level services are attached in
exactly the fixed order files, content provider, keymaps, autocmds,
locations, watchers, and the document model is attached after all of them as
the very last step of the trace. -/
theorem init_attach_order (env : Env) :
    (init env).filter Effect.isAttach
      = [Effect.attach Service.files, Effect.attach Service.contentProvider,
         Effect.attach Service.keymaps, Effect.attach Service.autocmds,
         Effect.attach Service.locations, Effect.attach Service.watchers,
         Effect.attach Service.documents] ∧
    (init env).getLast? = some (Effect.attach Service.documents) := by
  by_cases h : env.apiversion = APIVERSION <;>
    simp [init, h, Effect.isAttach]

/-- C1: for every environment snapshot whose `apiversion` differs from the
compiled-in expected version 17, `init` emits a non-fatal `echoError`
diagnostic naming both versions and ending in a remediation hint, and then
continues exactly as in the matching-version case: the trace after the
diagnostic is the matching-version trace, and the workspace-folder registry
and configuration store end up seeded with the snapshot's `workspaceFolders`
and `config`. -/
theorem init_version_mismatch_continues (env : Env) (st : SeededState)
    (h : env.apiversion ≠ APIVERSION) :
    init env
      = Effect.echoError (vimInfoMismatchMsg env.apiversion)
          :: init { env with apiversion := APIVERSION } ∧
    vimInfoMismatchMsg env.apiversion
      = "API version " ++ toString env.apiversion ++ " is not "
          ++ toString APIVERSION ++ versionMismatchHint ∧
    versionMismatchHint ≠ "" ∧
    runInit env st
      = { st with workspaceFolders := env.workspaceFolders,
                  configStore := env.config } ∧
    runInit env st = runInit { env with apiversion := APIVERSION } st := by
  have hinit : init env
      = Effect.echoError (vimInfoMismatchMsg env.apiversion)
          :: init { env with apiversion := APIVERSION } := by
    simp [init, h]
  refine ⟨hinit, rfl, by decide, ?_, ?_⟩
  · simp [runInit, hinit, applyEffect, init]
  · simp [runInit, hinit, applyEffect, init]

/-- C3 counterexample: with a `dispose` run in which the first collaborator
(the watcher registry) throws, only that step is invoked: the autocmd
registry's dispose step — a member of the fixed order — is never executed, so
a failure is not isolated and does prevent later steps. -/
theorem dispose_throw_not_isolated :
    (runDispose (fun c => c == Collab.watchers)).1 = [Collab.watchers] ∧
    Collab.autocmds ∉ (runDispose (fun c => c == Collab.watchers)).1 ∧
    Collab.autocmds ∈ disposeOrder ∧
    (runDispose (fun c => c == Collab.watchers)).2 = false := by
  decide

/-- C3 amended: `dispose` invokes the collaborators' dispose steps in the
fixed order watchers, autocmds, content provider, document model,
configuration store, with no isolation of failures: the steps invoked are
exactly the prefix of that order up to and including the first throwing step
(all five when none throws), and the method completes normally exactly when
no step throws. -/
theorem dispose_fixed_order_abort (throws : Collab → Bool) :
    (runDispose throws).1 = disposeExecutedSpec throws ∧
    (runDispose throws).2 = disposeOrder.all (fun c => !throws c) := by
  revert throws; decide

/-- C4: for every deprecated method of the shim's fixed list, reading the
accessor logs nothing and merely yields the forwarding function; each
invocation of the forwarding function appends exactly one warning to the log
and delegates to the same-named method of the replacement surface with the
same arguments, returning its result unchanged; n invocations grow the log by
exactly n entries even though the accessor was read only once. -/
theorem shim_one_warning_per_invocation (window : Window) (method : String)
    (hm : method ∈ methods) (args : List Nat) (stackLines : List String)
    (calls : List (List Nat × List String)) (log : WarnLog) :
    (accessorRead window method log).2 = log ∧
    (accessorRead window method log).1 = forwardingFn window method ∧
    (forwardingFn window method args stackLines log).1 = window method args ∧
    (forwardingFn window method args stackLines log).2
      = log ++ [(deprecationMsg method, stackExcerpt stackLines)] ∧
    (invokeAll window method calls log).length = log.length + calls.length := by
  refine ⟨rfl, rfl, rfl, rfl, ?_⟩
  induction calls generalizing log with
  | nil => simp [invokeAll]
  | cons c rest ih =>
    simp only [invokeAll, List.foldl_cons] at ih ⊢
    rw [ih]
    simp [forwardingFn]
    omega

/-- Witness for C4: two invocations through the shimmed `showMessage`
accessor, read once, produce exactly two warning log entries. -/
theorem shim_one_warning_witness :
    (invokeAll (fun _ _ => 0) "showMessage"
      [([1], ["Error", "at a", "at b", "at c"]),
       ([2], ["Error", "at a", "at b", "at c"])] []).length = 2 :=
  (shim_one_warning_per_invocation (fun _ _ => 0) "showMessage" (by decide)
    [] [] [([1], ["Error", "at a", "at b", "at c"]),
           ([2], ["Error", "at a", "at b", "at c"])] []).2.2.2.2

/-- C5 counterexample: on a caller stack of four frames below the header
line, the code keeps only the lines at indices 2 and 3 of the newline-split
stack — two frames, not the claimed three: the fourth frame is absent from
the excerpt. -/
theorem stack_excerpt_two_frames_only :
    sliceStack ["Error", "at frame1", "at frame2", "at frame3", "at frame4"]
      = ["at frame2", "at frame3"] ∧
    "at frame4" ∉
      sliceStack ["Error", "at frame1", "at frame2", "at frame3", "at frame4"] ∧
    (sliceStack ["Error", "at frame1", "at frame2", "at frame3", "at frame4"]).length
      ≠ 3 := by
  decide

/-- C5 amended: the logged warning names the replacement method
(`window.<method>`), and the stack excerpt consists of exactly the lines at
indices 2 and 3 of the newline-split caller stack — the second and third
stack frames after the header line, two frames chosen to skip the shim
frame. -/
theorem shim_stack_excerpt_frames (method : String) (stackLines : List String)
    (a b : String) (h2 : stackLines.get? 2 = some a)
    (h3 : stackLines.get? 3 = some b) :
    sliceStack stackLines = [a, b] ∧
    stackExcerpt stackLines = "\n" ++ (a ++ "\n" ++ b) ∧
    deprecationMsg method
      = "workspace." ++ method ++ " is deprecated, please use "
          ++ ("window." ++ method) ++ " instead." := by
  match stackLines, h2, h3 with
  | x0 :: x1 :: x2 :: x3 :: rest, h2, h3 =>
    simp only [List.get?] at h2 h3
    cases h2; cases h3
    refine ⟨rfl, rfl, ?_⟩
    rw [← String.append_assoc
          ("workspace." ++ method ++ " is deprecated, please use ")
          ("window.") method,
        String.append_assoc ("workspace." ++ method)
          (" is deprecated, please use ") ("window.")]
    rfl

/-- Witness for C5's amended statement at a concrete five-line stack. -/
theorem shim_stack_excerpt_witness :
    sliceStack ["Error", "at caller1", "at caller2", "at caller3", "at caller4"]
      = ["at caller2", "at caller3"] :=
  (shim_stack_excerpt_frames "moveTo"
    ["Error", "at caller1", "at caller2", "at caller3", "at caller4"]
    "at caller2" "at caller3" (by decide) (by decide)).1

/-- Witness for C1 at a concrete mismatched snapshot (apiversion 16). -/
theorem init_version_mismatch_witness :
    runInit
      { apiversion := 16, isVim := false, floating := true, textprop := false,
        completeOpt := "menuone", workspaceFolders := ["f1", "f2"],
        config := "cfg", extensionRoot := "/home/u/.config/coc/extensions" }
      { workspaceFolders := [], configStore := "" }
      = { workspaceFolders := ["f1", "f2"], configStore := "cfg" } :=
  (init_version_mismatch_continues
    { apiversion := 16, isVim := false, floating := true, textprop := false,
      completeOpt := "menuone", workspaceFolders := ["f1", "f2"],
      config := "cfg", extensionRoot := "/home/u/.config/coc/extensions" }
    { workspaceFolders := [], configStore := "" } (by decide)).2.2.2.1

/-- The resolved character sequence of a path is never empty: Node's
normalize yields at least "." or "/". -/
theorem pathNormalizeCore_ne_nil (cs : List Char) : pathNormalizeCore cs ≠ [] := by
  unfold pathNormalizeCore
  split_ifs with h1
  · simp
  · dsimp only
    split_ifs <;> simp_all

/-- Node's `path.normalize` never returns an empty string, hence never a
falsy one: the `||` fallback of workspace.ts line 77 is unreachable whenever
`path.normalize` returns at all. -/
theorem pathNormalize_ne_empty (p : String) : pathNormalize p ≠ "" := by
  intro h
  exact pathNormalizeCore_ne_nil p.data (congrArg String.data h)

/-- C8 (the code bug): with `COC_VIMCONFIG` unset, the constructor's home
computation throws a TypeError out of `path.normalize(undefined)` instead of
falling back to the platform default `~/.vim`; the fallback operand is
unreachable in every case in which `path.normalize` returns at all, because a
normalized path is never the empty (falsy) string; with the variable set, the
configuration file is resolved under its value. -/
theorem userConfigFile_unset_throws :
    userConfigFile none "/home/user"
      = Except.error "TypeError: The \x22path\x22 argument must be of type string" ∧
    (∀ s : String, pathNormalize s ≠ "") ∧
    userConfigFile (some "/data/vimcfg") "/home/user"
      = Except.ok "/data/vimcfg/coc-settings.json" :=
  ⟨rfl, pathNormalize_ne_empty, rfl⟩

/-- C9 counterexample: at extensionRoot `/home/u/.config/coc/extensions` and
name `mydb`, `createDatabase` places the backing file at
`/home/u/.config/coc/mydb.json` — under the parent of the extension
directory, not under the extension directory itself. -/
theorem createDatabase_not_under_extensionRoot :
    createDatabase false "/tmp" 1000 "/home/u/.config/coc/extensions" "mydb"
      = "/home/u/.config/coc/mydb.json" ∧
    createDatabase false "/tmp" 1000 "/home/u/.config/coc/extensions" "mydb"
      ≠ pathJoin ["/home/u/.config/coc/extensions", "mydb.json"] ∧
    ("/home/u/.config/coc/extensions/".data.isPrefixOf
        (createDatabase false "/tmp" 1000 "/home/u/.config/coc/extensions" "mydb").data)
      = false := by
  refine ⟨by decide, by decide, by decide⟩

/-- C9 amended: `createDatabase(name)` creates the key-value store whose
backing file is named `name ++ ".json"` and is rooted under the parent
directory of the snapshot's extensionRoot (`path.dirname(extensionRoot)`);
under the test flag the root is a coc-pid directory below the temporary
directory instead. -/
theorem createDatabase_parent_of_extensionRoot (tmpdir : String) (pid : Nat)
    (extensionRoot : String) (name : String) :
    createDatabase false tmpdir pid extensionRoot name
      = databasePathSpec extensionRoot name ∧
    createDatabase true tmpdir pid extensionRoot name
      = pathJoin [pathJoin [tmpdir, "coc-" ++ toString pid], name ++ ".json"] :=
  ⟨rfl, rfl⟩

/-- A lookup by key misses when no entry with that key is stored. -/
theorem find?_key_of_not_mem (m : SyncMap) (b : Nat) (h : ∀ it, (b, it) ∉ m) :
    m.find? (fun e => e.1 == b) = none := by
  induction m with
  | nil => rfl
  | cons e rest ih =>
    obtain ⟨k, v⟩ := e
    by_cases hkb : k = b
    · subst hkb
      exact absurd (List.mem_cons_self (k, v) rest) (h v)
    · rw [List.find?_cons_of_neg]
      · exact ih (fun it hit => h it (List.mem_cons_of_mem _ hit))
      · simp [hkb]

/-- With no duplicate keys, a lookup by key returns the stored entry. -/
theorem find?_key_of_mem (m : SyncMap) (b : Nat) (it : Item)
    (hnd : (m.map Prod.fst).Nodup) (hm : (b, it) ∈ m) :
    m.find? (fun e => e.1 == b) = some (b, it) := by
  induction m with
  | nil => cases hm
  | cons e rest ih =>
    obtain ⟨k, v⟩ := e
    rcases List.mem_cons.mp hm with heq | hrest
    · rw [← heq]
      rw [List.find?_cons_of_pos]
      simp
    · have hk : k ≠ b := by
        intro hkb
        subst hkb
        have hmem : k ∈ rest.map Prod.fst :=
          List.mem_map.mpr ⟨(k, it), hrest, rfl⟩
        exact (List.nodup_cons.mp (by simpa using hnd)).1 hmem
      rw [List.find?_cons_of_neg]
      · exact ih (List.nodup_cons.mp (by simpa using hnd)).2 hrest
      · simp [hk]

/-- Removing the entries of one key does not change a lookup for another. -/
theorem find?_filter_ne (m : SyncMap) (b b2 : Nat) (hne : b ≠ b2) :
    (m.filter (fun e => e.1 != b2)).find? (fun e => e.1 == b)
      = m.find? (fun e => e.1 == b) := by
  induction m with
  | nil => rfl
  | cons e rest ih =>
    obtain ⟨k, v⟩ := e
    by_cases hk2 : k = b2
    · have hkb : k ≠ b := fun hkb => hne (hkb ▸ hk2)
      rw [List.filter_cons_of_neg (by simp [hk2]), ih,
          List.find?_cons_of_neg _ (by simp [hkb])]
    · rw [List.filter_cons_of_pos (by simp [hk2])]
      by_cases hkb : k = b
      · rw [List.find?_cons_of_pos _ (by simp [hkb]),
            List.find?_cons_of_pos _ (by simp [hkb])]
      · rw [List.find?_cons_of_neg _ (by simp [hkb]),
            List.find?_cons_of_neg _ (by simp [hkb]), ih]

/-- After removing the entries of a key, a lookup for that key misses. -/
theorem find?_filter_self (m : SyncMap) (b : Nat) :
    (m.filter (fun e => e.1 != b)).find? (fun e => e.1 == b) = none := by
  rw [List.find?_eq_none]
  intro x hx
  have := (List.mem_filter.mp hx).2
  simp_all

/-- C7: a registry created by `registerBufferSync` stores an entry exactly
for the open documents its factory accepts; on a document close with a stored
entry, the teardown capability fires exactly when the item has one and the
entry is then removed; a close with no stored entry (factory declined) does
nothing; entries of other documents are untouched; the removal happens
exactly once — a second close of the same document neither fires teardown nor
changes the mapping — and the teardown fired for one document is independent
of the relative close order of other documents. -/
theorem bufferSync_close (create : Doc → Option Item) (openDocs : List Doc)
    (m : SyncMap) (b : Nat) (hnd : (m.map Prod.fst).Nodup) :
    (∀ b0 it0, (b0, it0) ∈ registerBufferSync create openDocs ↔
        ∃ d ∈ openDocs, d.bufnr = b0 ∧ create d = some it0) ∧
    (∀ it, (b, it) ∈ m →
        (onBufUnload m b).2 = (if it.hasDispose then [b] else []) ∧
        ∀ it2, (b, it2) ∉ (onBufUnload m b).1) ∧
    ((∀ it, (b, it) ∉ m) → onBufUnload m b = (m, [])) ∧
    (∀ b2 it2, b2 ≠ b → ((b2, it2) ∈ (onBufUnload m b).1 ↔ (b2, it2) ∈ m)) ∧
    (onBufUnload (onBufUnload m b).1 b).2 = [] ∧
    (onBufUnload (onBufUnload m b).1 b).1 = (onBufUnload m b).1 ∧
    (∀ b2, b2 ≠ b →
        (onBufUnload (onBufUnload m b2).1 b).2 = (onBufUnload m b).2) := by
  refine ⟨?_, ?_, ?_, ?_, ?_, ?_, ?_⟩
  · intro b0 it0
    simp only [registerBufferSync, List.mem_filterMap, Option.map_eq_some',
      Prod.ext_iff]
    constructor
    · rintro ⟨d, hd, it', hc, h1, h2⟩
      exact ⟨d, hd, h1, h2 ▸ hc⟩
    · rintro ⟨d, hd, h1, hc⟩
      exact ⟨d, hd, it0, hc, h1, rfl⟩
  · intro it hit
    have hf := find?_key_of_mem m b it hnd hit
    refine ⟨by simp [onBufUnload, hf], ?_⟩
    intro it2 hmem
    rw [onBufUnload, hf] at hmem
    exact absurd (List.mem_filter.mp hmem).2 (by simp)
  · intro h
    simp [onBufUnload, find?_key_of_not_mem m b h]
  · intro b2 it2 hne
    cases hf : m.find? (fun e => e.1 == b) with
    | none => simp [onBufUnload, hf]
    | some e => simp [onBufUnload, hf, List.mem_filter, hne]
  · cases hf : m.find? (fun e => e.1 == b) with
    | none => simp [onBufUnload, hf]
    | some e =>
      simp only [onBufUnload, hf]
      rw [find?_filter_self]
  · cases hf : m.find? (fun e => e.1 == b) with
    | none => simp [onBufUnload, hf]
    | some e =>
      simp only [onBufUnload, hf]
      rw [find?_filter_self]
  · intro b2 hne
    cases hf2 : m.find? (fun e => e.1 == b2) with
    | none => simp [onBufUnload, hf2]
    | some e =>
      simp only [onBufUnload, hf2]
      rw [find?_filter_ne m b b2 (Ne.symm hne)]
      cases hf : m.find? (fun e => e.1 == b) <;> simp [hf]

/-- Witness for C7: the spec's own example — a factory accepting typescript
documents only, documents 1 (typescript) and 2 (plaintext) open; closing
document 1 fires its teardown exactly once. -/
theorem bufferSync_close_witness :
    (onBufUnload [(1, Item.mk true), (2, Item.mk false)] 1).2 = [1] :=
  ((bufferSync_close
      (fun d => if d.languageId = "typescript" then some (Item.mk true) else none)
      [Doc.mk 1 "typescript", Doc.mk 2 "plaintext"]
      [(1, Item.mk true), (2, Item.mk false)] 1 (by decide)).2.1
    (Item.mk true) (by decide)).1

end Coc
